import Mathlib

/-!
Shallow embedding of the `purr` request router (src/purr), covering the
routing/dispatch engine, the response protocol adapter and the headers
multidict, together with theorems settling the specification claims.

Conventions of the embedding:
* Python strings and byte strings are modelled as Lean `String`s (all the
  inputs exercised here are ASCII); `str.lower` is modelled by `pyLower`,
  which lowercases ASCII letters exactly like `str.lower` does on ASCII.
* Python exceptions are modelled with `Except` and the `PyExc` type.
* The compiled regular expression produced by `compile_path_regex` is
  modelled as a list of atomic segments (`Seg`): one literal character per
  source character outside a `\x7bname\x7d` placeholder, and one named group
  `(?P<name>[a-zA-Z_0-9]+)` per placeholder.  `Pattern.match` (anchored at
  the start, free at the end, greedy with backtracking) is modelled by
  `matchSegs`.  The model treats literal characters verbatim; it is faithful
  exactly for templates whose literal text contains no regex
  metacharacter, and `compile_path_regex` rejects templates outside that
  fragment (see `REGEX_META`).
-/

/-- Character class of `PATH_REGEX`'s first identifier character,
`[a-zA-Z_]` (ASCII, as in the source regex). -/
def isIdentStart (c : Char) : Bool :=
  (('a' ≤ c && c ≤ 'z') || ('A' ≤ c && c ≤ 'Z')) || c = '_'

/-- Character class of the identifier tail in `PATH_REGEX`,
`[a-zA-Z\d_]` restricted to ASCII digits. -/
def isIdentChar (c : Char) : Bool :=
  isIdentStart c || ('0' ≤ c && c ≤ '9')

/-- Character class `[a-zA-Z_0-9]` used for the capture groups substituted
by `compile_path_regex`. -/
def isGroupChar (c : Char) : Bool :=
  isIdentStart c || ('0' ≤ c && c ≤ '9')

/-- Attempt to read, right after an opening brace, the body of a well-formed
placeholder: an identifier (`[a-zA-Z_][a-zA-Z\d_]*`, maximal munch — the
closing brace is not an identifier character, so the regex's greedy star
backtracks to exactly this run) followed by a closing brace.  Returns the
identifier and the characters after the closing brace. -/
def parsePh : List Char → Option (List Char × List Char)
  | [] => none
  | c :: cs =>
    if isIdentStart c then
      match cs.dropWhile isIdentChar with
      | '}' :: r => some (c :: cs.takeWhile isIdentChar, r)
      | _ => none
    else none

/-- Core of `get_path_params`: the left-to-right scan of
`PATH_REGEX.finditer`.  `finditer` retries from the next position after a
failed match attempt and resumes after the consumed text on success; since a
placeholder contains no `\x7b` after its opening brace, no placeholder can
begin strictly inside another one, so resuming at the character after the
opening brace is equivalent (theorem `scanParams_eq_phAt` proves this scan
returns the placeholder at every position where one starts). -/
def scanParams : List Char → List (List Char)
  | [] => []
  | c :: cs =>
    if c = '{' then
      match parsePh cs with
      | some (name, _) => name :: scanParams cs
      | none => scanParams cs
    else scanParams cs

/-- Model of `get_path_params` (src/purr/routing/router.py:29): the names of
all placeholders matched by `PATH_REGEX.finditer`, in order. -/
def get_path_params (path : String) : List String :=
  (scanParams path.data).map (fun name => String.mk name)

/-- Positional specification of a well-formed placeholder: the name of the
placeholder starting at index `i` of the template, if any. -/
def phAt (t : List Char) (i : Nat) : Option (List Char) :=
  match t.drop i with
  | [] => none
  | c :: cs => if c = '{' then (parsePh cs).map Prod.fst else none

/-- One atom of a compiled route pattern: a literal character, or a named
capture group `(?P<name>[a-zA-Z_0-9]+)`. -/
inductive Seg where
  | litc (c : Char)
  | grp (name : String)
deriving DecidableEq, Repr

/-- Fuel-indexed scan of a template into pattern segments, mirroring the
string replacement of `compile_path_regex`: every occurrence of a
well-formed placeholder becomes a named group (the occurrences of the
substring `"\x7bparam\x7d"` for `param` in the extracted parameter list are
exactly the well-formed placeholders), every other character stays literal.
The fuel only discharges termination; `templateSegs` supplies `t.length`,
which is sufficient since each step consumes at least one character. -/
def templateSegsF : Nat → List Char → List Seg
  | 0, _ => []
  | _, [] => []
  | fuel + 1, c :: cs =>
    if c = '{' then
      match parsePh cs with
      | some (name, rest) => Seg.grp (String.mk name) :: templateSegsF fuel rest
      | none => Seg.litc c :: templateSegsF fuel cs
    else Seg.litc c :: templateSegsF fuel cs

/-- Segments of a path template after placeholder substitution. -/
def templateSegs (t : List Char) : List Seg :=
  templateSegsF t.length t

/-- Fuel-indexed model of `Pattern.match` for patterns of `Seg` atoms:
anchored at the start of the subject, free at the end (a proper prefix
match succeeds, exactly like `re.match`), with the greedy, backtracking
semantics of `[a-zA-Z_0-9]+` for groups (longest capture first, then
shorter ones).  Returns the named captures in group order — the order in
which `Match.groupdict` enumerates them — or `none` when there is no
match.  The fuel only discharges termination (each step removes one
segment); `matchSegs` supplies `segs.length`. -/
def matchSegsF : Nat → List Seg → List Char → Option (List (String × String))
  | _, [], _ => some []
  | 0, _ :: _, _ => none
  | fuel + 1, Seg.litc c :: rest, cs =>
    match cs with
    | [] => none
    | d :: ds => if c = d then matchSegsF fuel rest ds else none
  | fuel + 1, Seg.grp n :: rest, cs =>
    let run := (cs.takeWhile isGroupChar).length
    (List.range run).findSome? fun i =>
      (matchSegsF fuel rest (cs.drop (run - i))).map
        fun caps => (n, String.mk (cs.take (run - i))) :: caps

/-- Model of `Pattern.match` on the subject's characters. -/
def matchSegs (segs : List Seg) (cs : List Char) : Option (List (String × String)) :=
  matchSegsF segs.length segs cs

/-- Python exceptions raised by the modelled code. -/
inductive PyExc where
  | attributeError (msg : String)
  | valueError (msg : String)
  | reError (msg : String)
deriving DecidableEq, Repr

/-- Characters that are regex metacharacters when they survive into the
literal text of the compiled pattern.  A template whose literal text (the
text outside well-formed placeholders) contains one of these is outside the
embedded fragment: depending on the character, `re.compile` either raises
`re.error` or compiles a pattern with non-literal semantics.  Leftover
braces (from malformed placeholders) are included because they can form
quantifiers. -/
def REGEX_META : List Char :=
  ['(', ')', '[', ']', '{', '}', '?', '*', '+', '|', '^', '$', '\\', '.']

/-- Whether a segment's literal character is free of regex metacharacters. -/
def litcSafe : Seg → Bool
  | Seg.litc c => !(REGEX_META.contains c)
  | Seg.grp _ => true

/-- ASCII model of `str.lower`. -/
def pyLower (s : String) : String :=
  String.mk (s.data.map Char.toLower)

/-- The `METHODS` set (src/purr/routing/router.py:14). -/
def METHODS : List String :=
  ["get", "post", "delete", "put", "head", "connect", "options", "trace", "patch"]

/-- Model of `compile_path_regex` (src/purr/routing/router.py:48): the
pattern string is `method ++ "_" ++ path` with every `"\x7bparam\x7d"`
occurrence replaced by a named group.  `re.compile` raises `re.error` when
two groups share a name, i.e. exactly when the extracted parameter list has
a duplicate; templates whose literal text contains a regex metacharacter
are rejected as outside the embedded fragment (see `REGEX_META`). -/
def compile_path_regex (path : String) (path_params : List String) (method : String) :
    Except PyExc (List Seg) :=
  if ¬ path_params.Nodup then
    .error (.reError "redefinition of group name")
  else if ¬ (templateSegs path.data).all litcSafe then
    .error (.reError "unsupported regex metacharacter in path template")
  else
    .ok ((method ++ "_").data.map Seg.litc ++ templateSegs path.data)

/-- A handler, abstracted to what the router inspects: an identity (so
theorems can tell handlers apart), whether `inspect.iscoroutinefunction`
accepts it, and its `__annotations__` mapping (name, `str` of the
annotation), in insertion order. -/
structure Handler where
  id : Nat
  isAsync : Bool
  anns : List (String × String)
deriving DecidableEq, Repr

/-- Model of the `Route` object's attributes after construction. -/
structure Route where
  path : String
  handler : Handler
  method : String
  path_params : List String
  path_regex : List Seg
deriving DecidableEq, Repr

/-- Model of `Route.__init__` (src/purr/routing/router.py:106).  The checks
happen in source order: handler kind first, then the method set, then the
pattern compilation (which receives the method in its original case, while
`self.method` stores the lowercased method). -/
def Route.init (path : String) (handler : Handler) (method : String) : Except PyExc Route :=
  if handler.isAsync = false then
    .error (.attributeError "Handler must be an asynchronous function")
  else if METHODS.contains (pyLower method) = false then
    .error (.attributeError ("Invalid request method " ++ method))
  else
    match compile_path_regex path (get_path_params path) method with
    | .error e => .error e
    | .ok segs => .ok ⟨path, handler, pyLower method, get_path_params path, segs⟩

/-- Source string of a compiled pattern, exactly as `compile_path_regex`
builds it.  `re.compile` caches compiled patterns by source string, so two
`compile_path_regex` calls with equal pattern strings return the identical
`Pattern` object; the router's dictionary of routes is therefore modelled
as keyed by this string. -/
def renderPattern (segs : List Seg) : String :=
  String.join (segs.map fun s =>
    match s with
    | Seg.litc c => String.mk [c]
    | Seg.grp n => "(?P<" ++ n ++ ">[a-zA-Z_0-9]+)")

/-- Model of the router's route table: the insertion-ordered dictionary
`\x7bcompiled pattern: Route\x7d`.  (The `app` back-reference and the
`scope["router"] = self` convenience assignment play no role in any claim
and are omitted.) -/
structure Router where
  routes : List (String × Route)
deriving DecidableEq, Repr

/-- Python dict assignment `d[k] = v`: replaces the value in place when the
key is present (keeping its insertion position), appends otherwise. -/
def insertOrReplace (l : List (String × Route)) (k : String) (v : Route) :
    List (String × Route) :=
  if l.any (fun p => p.1 = k) then
    l.map (fun p => if p.1 = k then (k, v) else p)
  else
    l ++ [(k, v)]

/-- Model of `Router.register` (src/purr/routing/router.py:154). -/
def Router.register (r : Router) (path : String) (handler : Handler) (method : String) :
    Except PyExc Router :=
  match Route.init path handler method with
  | .error e => .error e
  | .ok route => .ok ⟨insertOrReplace r.routes (renderPattern route.path_regex) route⟩

/-- The ASGI scope fields the router reads.  `query_string` (bytes on the
wire) is modelled as a string. -/
structure Scope where
  type : String
  method : String
  path : String
  query_string : String
deriving DecidableEq, Repr

/-- An in-memory response value: `body` (bytes, modelled as a UTF-8
string), `status_code`, and the header pair list of its `Headers`. -/
structure HTTPResponseData where
  body : String
  status_code : Nat
  headers : List (String × String)
deriving DecidableEq, Repr

/-- A response synthesized by the router itself: `HTTPResponse(body,
status_code=...)` — default empty `Headers`, no content type. -/
def mkHTTPResponse (body : String) (status_code : Nat) : HTTPResponseData :=
  ⟨body, status_code, []⟩

/-- Outcome of one `Router.__call__` dispatch, observed at the point where
the coroutine finishes: either the router awaited a response it synthesized
itself, or it invoked a matched route's handler (recording the handler and
the positional/keyword arguments it received) and awaited the handler's
response, or an exception escaped uncaught. -/
inductive DispatchResult where
  | response (r : HTTPResponseData)
  | handlerResponse (hid : Nat) (posArgs : List String) (kwArgs : List (String × String))
  | pyError (e : PyExc)
deriving DecidableEq, Repr

/-- Split a character list on a separator character (model of
`bytes.split` as used inside `urllib.parse.parse_qsl`). -/
def splitOnChar (sep : Char) : List Char → List (List Char)
  | [] => [[]]
  | c :: rest =>
    if c = sep then
      [] :: splitOnChar sep rest
    else
      match splitOnChar sep rest with
      | h :: t => (c :: h) :: t
      | [] => [[c]]

/-- Split a field at its first `=` (model of `field.partition(sep)`). -/
def splitFirstEq : List Char → Option (List Char × List Char)
  | [] => none
  | c :: rest =>
    if c = '=' then some ([], rest)
    else (splitFirstEq rest).map fun p => (c :: p.1, p.2)

/-- Keep the first value seen for each key, in first-occurrence key order. -/
def firstValues : List (String × String) → List (String × String)
  | [] => []
  | (k, v) :: rest => (k, v) :: (firstValues rest).filter (fun p => p.1 ≠ k)

/-- Model of `\x7bk.decode(): v[0] for k, v in parse_qs(qs).items()\x7d`
(src/purr/routing/router.py:202): fields split on `&`, each field split at
its first `=`; fields without `=` or with an empty value are dropped
(`keep_blank_values` is false); for repeated keys only the first value
survives.  Percent-decoding and `+`-decoding are not modelled (no claim
exercises them). -/
def parse_qs_first (qs : String) : List (String × String) :=
  firstValues ((splitOnChar '&' qs.data).filterMap fun f =>
    match splitFirstEq f with
    | none => none
    | some (n, v) => if v = [] then none else some (String.mk n, String.mk v))

/-- Python tuple unpacking `k, v = s` of a string `s`: a string is a
sequence of its characters, so unpacking succeeds exactly for two-character
strings and raises `ValueError` otherwise. -/
def strUnpack2 (s : String) : Except PyExc (String × String) :=
  match s.data with
  | [a, b] => .ok (String.mk [a], String.mk [b])
  | [] => .error (.valueError "not enough values to unpack (expected 2, got 0)")
  | [_] => .error (.valueError "not enough values to unpack (expected 2, got 1)")
  | _ => .error (.valueError "too many values to unpack (expected 2)")

/-- Model of `\x7bk: str(v) for k, v in route.handler.__annotations__\x7d`
(src/purr/routing/router.py:207).  Iterating a dict yields its keys, so
each KEY (a string) is unpacked into `(k, v)`; `str` applied to the
single-character string `v` is `v` itself. -/
def annComprehensionKeys (anns : List (String × String)) :
    Except PyExc (List (String × String)) :=
  anns.mapM fun kv => strUnpack2 kv.1

/-- Model of `parse_params` (src/purr/routing/router.py:70).  Every value is
a plain string validated by `parse_obj_as` against `create_model(name)`;
`create_model` called with just a model name creates a pydantic model with
no fields, and validating a non-dict (such as a string) against any such
model raises `ValidationError` whose first error message is "value is not a
valid dict".  Hence the call succeeds exactly when there is no parameter to
parse, and the error message is the same for every failing value. -/
def parse_params (query_params : List (String × String)) (path_params : List (String × String))
    (types : List (String × String)) :
    Except String (List (String × String) × List (String × String)) :=
  match query_params, path_params, types with
  | [], [], _ => .ok ([], [])
  | _, _, _ => .error "value is not a valid dict"

/-- The route-table scan of `Router.__call__` (src/purr/routing/router.py:193):
each compiled pattern is tested with `pattern.match(scope["path"])` against
the raw request path.  On the first match: a lowercased-method comparison
guards a 405, then the captured path parameters and first-value query
parameters are assembled, the annotation-driven parse runs when the handler
has annotations (its `ValueError` is not caught; the `ValidationError` of
`parse_params` becomes a 400), and finally the handler is invoked with the
path parameter values positionally and the query parameters as keywords. -/
def dispatchLoop (scope : Scope) : List (String × Route) → DispatchResult
  | [] => .response (mkHTTPResponse "URL not found" 404)
  | (_, route) :: rest =>
    match matchSegs route.path_regex scope.path.data with
    | none => dispatchLoop scope rest
    | some caps =>
      if pyLower scope.method ≠ route.method then
        .response (mkHTTPResponse "Method not allowed" 405)
      else
        if route.handler.anns ≠ [] then
          match annComprehensionKeys route.handler.anns with
          | .error e => .pyError e
          | .ok types =>
            match parse_params (parse_qs_first scope.query_string) caps types with
            | .error msg =>
              .response (mkHTTPResponse
                ("Bad request, failed to parse parameters: " ++ msg) 400)
            | .ok parsed =>
              .handlerResponse route.handler.id (parsed.2.map Prod.snd) parsed.1
        else
          .handlerResponse route.handler.id (caps.map Prod.snd)
            (parse_qs_first scope.query_string)

/-- Model of `Router.__call__` (src/purr/routing/router.py:183). -/
def Router.dispatch (r : Router) (scope : Scope) : DispatchResult :=
  if ¬ (scope.type = "http" ∨ scope.type = "websocket") then
    .response (mkHTTPResponse ("Invalid request type " ++ scope.type) 400)
  else
    dispatchLoop scope r.routes

/-- One ASGI message on the send channel. -/
inductive ASGIMessage where
  | start (status : Nat) (headers : List (String × String))
  | body (b : String)
deriving DecidableEq, Repr

/-- The attribute names the `Headers` class defines
(src/purr/http/headers.py:6): its `__init__` plus every method of the class
body, besides the `_list` instance attribute.  This list is exhaustive —
the class has no other assignment and no inheritance beyond `object`. -/
def headersAttributeNames : List String :=
  ["_list", "__init__", "__getitem__", "__setitem__", "keys", "values", "items",
   "get", "getlist", "__contains__", "__eq__", "__len__", "__iter__"]

/-- Model of `HTTPResponse.__call__` (src/purr/http/responses.py:47): the
first send's message expression evaluates `self.headers.raw()`, so the
attribute `raw` is looked up on the `Headers` instance before anything is
sent; `Headers` defines no such attribute, so the lookup raises
`AttributeError` and no message reaches the send channel.  (Had the lookup
succeeded, the two sends would emit the start message and then the body
message, which the `then` branch records.) -/
def HTTPResponse.call (r : HTTPResponseData) : Except PyExc (List ASGIMessage) :=
  if headersAttributeNames.contains "raw" then
    .ok [.start r.status_code r.headers, .body r.body]
  else
    .error (.attributeError "Headers object has no attribute raw")

/-- The state of a `Headers` instance: its `_list` of pairs. -/
structure HeadersData where
  _list : List (String × String)
deriving DecidableEq, Repr

/-- Advancing the generator `Headers.__iter__`
(src/purr/http/headers.py:127) to its first item, with an explicit
recursion-depth budget.  The body is `for key, value in self: yield key,
value`: producing the first yielded pair first asks `iter(self)` — this
same generator, one call deeper — for ITS first pair, never touching
`self._list`.  `none` means the budget was exhausted without an outcome
(in CPython the unbounded regress raises `RecursionError`); `some none`
would be a normal `StopIteration`, `some (some kv)` a yielded pair. -/
def headersIterNext (h : HeadersData) : Nat → Option (Option (String × String))
  | 0 => none
  | depth + 1 =>
    match headersIterNext h depth with
    | none => none
    | some none => some none
    | some (some kv) => some (some kv)

/-- Advancing the generator `Headers.items` (src/purr/http/headers.py:73) to
its first item: `yield from self` delegates every step to `__iter__`. -/
def headersItemsNext (h : HeadersData) (depth : Nat) : Option (Option (String × String)) :=
  headersIterNext h depth

/-- Concrete router of the `GET /hello/{name}` scenario: one route,
registered with method `"GET"` and an unannotated asynchronous handler. -/
def helloRouter : Except PyExc Router :=
  Router.register ⟨[]⟩ "/hello/{name}" ⟨1, true, []⟩ "GET"

/-- Concrete router with the same route but a handler annotated
`name: str` (its `__annotations__` holds the key `"name"`). -/
def annotatedHelloRouter : Except PyExc Router :=
  Router.register ⟨[]⟩ "/hello/{name}" ⟨3, true, [("name", "str")]⟩ "get"

/-- Concrete router of the `/widgets/{id}` claim, registered for `"get"`. -/
def widgetsRouter : Except PyExc Router :=
  Router.register ⟨[]⟩ "/widgets/{id}" ⟨7, true, []⟩ "get"

/-- Advancing `phAt` past one leading character. -/
theorem phAt_succ (c : Char) (t : List Char) (i : Nat) :
    phAt (c :: t) (i + 1) = phAt t i := rfl

/-- Splitting `filterMap` over `range (n + 1)` into the image of `0` and the
shifted rest. -/
theorem range_succ_filterMap {α : Type} (f : Nat → Option α) (n : Nat) :
    (List.range (n + 1)).filterMap f =
      (f 0).toList ++ (List.range n).filterMap (fun i => f (i + 1)) := by
  rw [List.range_succ_eq_map, List.filterMap_cons]
  cases h : f 0 <;>
    simp [List.filterMap_map, Function.comp_def, h]

/-- The finditer scan returns, in order of position, the placeholder found
at every position of the template where one starts. -/
theorem scanParams_eq_phAt (t : List Char) :
    scanParams t = (List.range t.length).filterMap (phAt t) := by
  induction t with
  | nil => rfl
  | cons c cs ih =>
    rw [List.length_cons, range_succ_filterMap]
    have hsh : (fun i => phAt (c :: cs) (i + 1)) = phAt cs := by
      funext i; exact phAt_succ c cs i
    rw [hsh, ← ih]
    by_cases hc : c = '{'
    · subst hc
      cases hp : parsePh cs with
      | none => simp [scanParams, phAt, hp]
      | some p => simp [scanParams, phAt, hp]
    · simp [scanParams, phAt, hc]

/-- C9: `get_path_params` (the extractParamNames of the spec) returns
exactly the inner identifiers of the well-formed placeholders of the
template — the placeholder found at each template position, enumerated in
left-to-right position order, duplicates preserved; in particular a
template with zero placeholders yields the empty list, and a template with
placeholders named `a` twice yields `["a", "a"]`. -/
theorem C9_extract_param_names :
    (∀ path : String,
      get_path_params path =
        (List.range path.data.length).filterMap
          (fun i => (phAt path.data i).map (fun name => String.mk name))) ∧
    get_path_params "/static/health" = [] ∧
    get_path_params "/users/{a}/posts/{a}" = ["a", "a"] := by
  refine ⟨fun path => ?_, by decide, by decide⟩
  unfold get_path_params
  rw [scanParams_eq_phAt, List.map_filterMap]

/-- C2 (the adapter never emits its two messages): for every response
value, `HTTPResponse.__call__` evaluates `self.headers.raw()` in the first
send's argument; `Headers` defines no attribute `raw`, so an
`AttributeError` is raised and nothing at all is sent — instead of the
claimed response-start message followed by the response-body message. -/
theorem C2_adapter_attribute_error (r : HTTPResponseData) :
    HTTPResponse.call r = .error (.attributeError "Headers object has no attribute raw") :=
  rfl

/-- C10: iterating a `Headers` instance never produces an outcome — for
every instance and every recursion-depth budget, neither a first
`(key, value)` pair nor a normal end of iteration is reached, because the
generator body iterates over the instance itself; `Headers.items`
delegates to the same generator. -/
theorem C10_headers_iter_diverges (h : HeadersData) (depth : Nat) :
    headersIterNext h depth = none ∧ headersItemsNext h depth = none := by
  induction depth with
  | zero => exact ⟨rfl, rfl⟩
  | succ n ih => exact ⟨by simp [headersIterNext, ih.1], by simp [headersItemsNext, headersIterNext, ih.1]⟩

/-- C5: for every scope whose type is neither "http" nor "websocket",
dispatch answers with a 400 response carrying the offending type in its
body, whatever the route table holds — the table is never consulted. -/
theorem C5_invalid_request_type (r : Router) (scope : Scope)
    (h1 : scope.type ≠ "http") (h2 : scope.type ≠ "websocket") :
    Router.dispatch r scope =
      .response (mkHTTPResponse ("Invalid request type " ++ scope.type) 400) := by
  unfold Router.dispatch
  rw [if_pos]
  exact fun hor => hor.elim h1 h2

/-- Witness for C5: a "grpc" scope dispatched against a nonempty route
table yields the 400 response. -/
theorem C5_invalid_request_type_witness :
    ("grpc" ≠ "http" ∧ "grpc" ≠ "websocket") ∧
    Router.dispatch ⟨[("get_/x", ⟨"/x", ⟨1, true, []⟩, "get", [],
        [Seg.litc 'g', Seg.litc 'e', Seg.litc 't', Seg.litc '_', Seg.litc '/', Seg.litc 'x']⟩)]⟩
      ⟨"grpc", "get", "/x", ""⟩ =
      .response (mkHTTPResponse ("Invalid request type " ++ "grpc") 400) :=
  ⟨⟨by decide, by decide⟩,
   C5_invalid_request_type _ _ (by decide) (by decide)⟩

/-- C1 (the scenario and the matching mechanism both fail): the compiled
pattern of `GET /hello/{name}` is `"GET_/hello/(?P<name>[a-zA-Z_0-9]+)"`,
but dispatch tests it against the bare request path — the composite
`"{method}_{requestPath}"` string is never built — so the request
`GET /hello/Ada` matches nothing and dispatch falls through to the 404
"URL not found" response instead of invoking the handler and producing
status 200 with body "Hi Ada".  The second conjunct shows the pattern
itself does match the composite string, pinning the divergence on the
missing prefix at match time. -/
theorem C1_hello_scenario_is_404 :
    helloRouter.map (fun r => r.dispatch ⟨"http", "GET", "/hello/Ada", ""⟩) =
      .ok (.response (mkHTTPResponse "URL not found" 404)) ∧
    helloRouter.map (fun r => (r.routes.map
        (fun kv => matchSegs kv.2.path_regex "GET_/hello/Ada".data))) =
      .ok [some [("name", "Ada")]] :=
  ⟨rfl, rfl⟩

/-- C6 (annotation-driven coercion crashes instead of coercing): with the
handler of `/hello/{name}` annotated (`__annotations__` holds the key
`"name"`), a request that does reach the route (contrived path
`"get_/hello/Ada"`, method `"get"`) makes dispatch iterate the annotations
dict without `.items()`; the keys are unpacked as pairs, the four-character
key `"name"` raises `ValueError`, and the exception escapes uncaught — no
coercion, no handler call and no 400 response. -/
theorem C6_annotation_parse_value_error :
    annotatedHelloRouter.map (fun r => r.dispatch ⟨"http", "get", "get_/hello/Ada", ""⟩) =
      .ok (.pyError (.valueError "too many values to unpack (expected 2)")) :=
  rfl

/-- Exhausting the route table without a match produces the 404 response. -/
theorem dispatchLoop_no_match (scope : Scope) (l : List (String × Route))
    (hnm : ∀ kv ∈ l, matchSegs kv.2.path_regex scope.path.data = none) :
    dispatchLoop scope l = .response (mkHTTPResponse "URL not found" 404) := by
  induction l with
  | nil => rfl
  | cons kv rest ih =>
    obtain ⟨k, route⟩ := kv
    have h0 := hnm (k, route) (List.mem_cons_self _ _)
    rw [dispatchLoop, h0]
    exact ih fun x hx => hnm x (List.mem_cons_of_mem _ hx)

/-- C4: whenever the scope type is "http" or "websocket" and the request
path matches none of the table's compiled patterns (in particular when the
table is empty), dispatch returns the 404 "URL not found" response after
scanning the whole table, and no handler is invoked. -/
theorem C4_no_route_404 (r : Router) (scope : Scope)
    (htype : scope.type = "http" ∨ scope.type = "websocket")
    (hnm : ∀ kv ∈ r.routes, matchSegs kv.2.path_regex scope.path.data = none) :
    Router.dispatch r scope = .response (mkHTTPResponse "URL not found" 404) := by
  unfold Router.dispatch
  rw [if_neg (not_not_intro htype)]
  exact dispatchLoop_no_match scope r.routes hnm

/-- Witness for C4: an empty route table sends every HTTP request to the
404 response. -/
theorem C4_no_route_404_witness :
    (("http" = "http" ∨ "http" = "websocket") ∧
      (∀ kv ∈ ([] : List (String × Route)),
        matchSegs kv.2.path_regex "/anything".data = none)) ∧
    Router.dispatch ⟨[]⟩ ⟨"http", "get", "/anything", ""⟩ =
      .response (mkHTTPResponse "URL not found" 404) :=
  ⟨⟨Or.inl rfl, by simp⟩,
   C4_no_route_404 ⟨[]⟩ ⟨"http", "get", "/anything", ""⟩ (Or.inl rfl) (by simp)⟩

/-- A literal pattern atom against an empty subject never matches. -/
theorem matchSegs_litc_nil (c : Char) (rest : List Seg) :
    matchSegs (Seg.litc c :: rest) [] = none := rfl

/-- A literal pattern atom consumes one equal character. -/
theorem matchSegs_litc_cons (c : Char) (rest : List Seg) (d : Char) (ds : List Char) :
    matchSegs (Seg.litc c :: rest) (d :: ds) =
      if c = d then matchSegs rest ds else none := rfl

/-- The explicit value of the router holding the `/widgets/{id}` route. -/
def widgetsRouterValue : Router :=
  ⟨[("get_/widgets/(?P<id>[a-zA-Z_0-9]+)",
     ⟨"/widgets/{id}", ⟨7, true, []⟩, "get", ["id"],
      [Seg.litc 'g', Seg.litc 'e', Seg.litc 't', Seg.litc '_',
       Seg.litc '/', Seg.litc 'w', Seg.litc 'i', Seg.litc 'd', Seg.litc 'g',
       Seg.litc 'e', Seg.litc 't', Seg.litc 's', Seg.litc '/', Seg.grp "id"]⟩)]⟩

/-- Registration of `/widgets/{id}` produces exactly that router. -/
theorem widgetsRouter_eq : widgetsRouter = .ok widgetsRouterValue := rfl

/-- When every route before position `i` fails to match, the route at `i`
matches and its method differs from the lowercased request method, the scan
stops at position `i` with the 405 response. -/
theorem dispatchLoop_first_match_405 (scope : Scope) (pre : List (String × Route))
    (k : String) (route : Route) (post : List (String × Route))
    (caps : List (String × String))
    (hpre : ∀ kv ∈ pre, matchSegs kv.2.path_regex scope.path.data = none)
    (hm : matchSegs route.path_regex scope.path.data = some caps)
    (hne : pyLower scope.method ≠ route.method) :
    dispatchLoop scope (pre ++ (k, route) :: post) =
      .response (mkHTTPResponse "Method not allowed" 405) := by
  induction pre with
  | nil =>
    rw [List.nil_append, dispatchLoop]
    simp [hm, hne]
  | cons kv rest ih =>
    obtain ⟨kk, rr⟩ := kv
    rw [List.cons_append, dispatchLoop, hpre (kk, rr) (List.mem_cons_self _ _)]
    exact ih fun x hx => hpre x (List.mem_cons_of_mem _ hx)

/-- C3: dispatching a POST whose path literally matches the `/widgets/{id}`
template against the route registered for `"get"` yields one of 405 and
404 (it is in fact the 404: the compiled pattern demands the `"get_"`
prefix that no such path carries); and whenever the matcher does report a
match for a route whose method differs from the request method
(lowercased), dispatch produces the 405 "Method not allowed" response at
once, whatever routes follow. -/
theorem C3_wrong_method_405_or_404 :
    (∀ p : String,
      matchSegs (templateSegs "/widgets/{id}".data) p.data ≠ none →
      widgetsRouter.map (fun r => r.dispatch ⟨"http", "post", p, ""⟩) =
          .ok (.response (mkHTTPResponse "Method not allowed" 405)) ∨
      widgetsRouter.map (fun r => r.dispatch ⟨"http", "post", p, ""⟩) =
          .ok (.response (mkHTTPResponse "URL not found" 404))) ∧
    (∀ (pre post : List (String × Route)) (k : String) (route : Route)
        (scope : Scope) (caps : List (String × String)),
      scope.type = "http" →
      (∀ kv ∈ pre, matchSegs kv.2.path_regex scope.path.data = none) →
      matchSegs route.path_regex scope.path.data = some caps →
      pyLower scope.method ≠ route.method →
      Router.dispatch ⟨pre ++ (k, route) :: post⟩ scope =
        .response (mkHTTPResponse "Method not allowed" 405)) := by
  constructor
  · intro p hp
    right
    have hseg : templateSegs "/widgets/{id}".data =
        Seg.litc '/' :: [Seg.litc 'w', Seg.litc 'i', Seg.litc 'd', Seg.litc 'g',
          Seg.litc 'e', Seg.litc 't', Seg.litc 's', Seg.litc '/', Seg.grp "id"] := by
      decide
    rw [hseg] at hp
    cases hpd : p.data with
    | nil => rw [hpd, matchSegs_litc_nil] at hp; exact absurd rfl hp
    | cons d ds =>
      rw [hpd, matchSegs_litc_cons] at hp
      have hd : d = '/' := by
        by_contra hd
        rw [if_neg fun h => hd h.symm] at hp
        exact hp rfl
      rw [widgetsRouter_eq]
      show Except.ok (Router.dispatch widgetsRouterValue ⟨"http", "post", p, ""⟩) = _
      unfold Router.dispatch
      rw [if_neg (not_not_intro (Or.inl rfl))]
      rw [dispatchLoop_no_match]
      intro kv hkv
      rw [List.mem_singleton.mp hkv]
      show matchSegs (Seg.litc 'g' :: _) p.data = none
      rw [hpd, hd, matchSegs_litc_cons, if_neg (by decide)]
  · intro pre post k route scope caps ht hpre hm hne
    unfold Router.dispatch
    rw [if_neg (not_not_intro (Or.inl ht))]
    exact dispatchLoop_first_match_405 scope pre k route post caps hpre hm hne

/-- Witness for C3: the concrete path `"/widgets/abc"` matches the bare
template and is dispatched to the 404 branch of the disjunction, and a
concrete matching scope with method `"post"` against a `"get"` route —
followed by a further route — receives the 405 response without the later
route being consulted. -/
theorem C3_wrong_method_405_or_404_witness :
    (matchSegs (templateSegs "/widgets/{id}".data) "/widgets/abc".data ≠ none ∧
      (widgetsRouter.map (fun r => r.dispatch ⟨"http", "post", "/widgets/abc", ""⟩) =
          .ok (.response (mkHTTPResponse "Method not allowed" 405)) ∨
        widgetsRouter.map (fun r => r.dispatch ⟨"http", "post", "/widgets/abc", ""⟩) =
          .ok (.response (mkHTTPResponse "URL not found" 404)))) ∧
    Router.dispatch
        ⟨[] ++ ("get_/x", ⟨"/x", ⟨1, true, []⟩, "get", [],
            [Seg.litc 'g', Seg.litc 'e', Seg.litc 't', Seg.litc '_',
             Seg.litc '/', Seg.litc 'x']⟩) ::
          [("post_/x", ⟨"/x", ⟨9, true, []⟩, "post", [],
            [Seg.litc 'p', Seg.litc 'o', Seg.litc 's', Seg.litc 't', Seg.litc '_',
             Seg.litc '/', Seg.litc 'x']⟩)]⟩
        ⟨"http", "post", "get_/x", ""⟩ =
      .response (mkHTTPResponse "Method not allowed" 405) :=
  ⟨⟨by decide, C3_wrong_method_405_or_404.1 "/widgets/abc" (by decide)⟩,
   C3_wrong_method_405_or_404.2 [] _ "get_/x" _ ⟨"http", "post", "get_/x", ""⟩ []
     rfl (by simp) (by decide) (by decide)⟩

/-- C7 counterexample: with a perfectly asynchronous handler and the valid
method `"get"`, construction still fails for the template `"/{a}/{a}"`:
both placeholders substitute a group named `a`, and `re.compile` rejects
the redefinition of a group name — contradicting the claim that the
handler kind and the method are the only failure conditions. -/
theorem C7_route_init_counterexample :
    Route.init "/{a}/{a}" ⟨0, true, []⟩ "get" =
      .error (.reError "redefinition of group name") := rfl

/-- C7 (amended): `Route.__init__` fails on a non-asynchronous handler,
then on a method whose lowercasing is outside the method set, then on a
template whose compiled pattern is not a valid regex (in particular on a
duplicated placeholder name); when the handler is asynchronous, the method
is valid, the placeholder names are pairwise distinct and the literal text
is regex-safe, it succeeds and stores the lowercased method, the extracted
parameter names and the compiled pattern, with no other effect. -/
theorem C7_route_init_contract (path : String) (handler : Handler) (method : String) :
    (handler.isAsync = false →
      Route.init path handler method =
        .error (.attributeError "Handler must be an asynchronous function")) ∧
    (handler.isAsync = true → METHODS.contains (pyLower method) = false →
      Route.init path handler method =
        .error (.attributeError ("Invalid request method " ++ method))) ∧
    (handler.isAsync = true → METHODS.contains (pyLower method) = true →
      ¬ (get_path_params path).Nodup →
      Route.init path handler method = .error (.reError "redefinition of group name")) ∧
    (handler.isAsync = true → METHODS.contains (pyLower method) = true →
      (get_path_params path).Nodup → (templateSegs path.data).all litcSafe = true →
      Route.init path handler method =
        .ok ⟨path, handler, pyLower method, get_path_params path,
             (method ++ "_").data.map Seg.litc ++ templateSegs path.data⟩) := by
  refine ⟨fun hA => ?_, fun hA hC => ?_, fun hA hC hN => ?_, fun hA hC hN hS => ?_⟩
  · simp [Route.init, hA]
  · have hC2 : ¬ (pyLower method ∈ METHODS) := by simpa using hC
    simp [Route.init, hA, hC2]
  · have hC2 : pyLower method ∈ METHODS := by simpa using hC
    simp [Route.init, compile_path_regex, hA, hC2, hN]
  · have hC2 : pyLower method ∈ METHODS := by simpa using hC
    simp [Route.init, compile_path_regex, hA, hC2, hN, hS]

/-- Witness for C7: the successful construction of the `/hello/{name}`
route for method `"GET"`, with every hypothesis checked concretely. -/
theorem C7_route_init_contract_witness :
    ((⟨21, true, []⟩ : Handler).isAsync = true ∧
      METHODS.contains (pyLower "GET") = true ∧
      (get_path_params "/hello/{name}").Nodup ∧
      (templateSegs "/hello/{name}".data).all litcSafe = true) ∧
    Route.init "/hello/{name}" ⟨21, true, []⟩ "GET" =
      .ok ⟨"/hello/{name}", ⟨21, true, []⟩, pyLower "GET", get_path_params "/hello/{name}",
           ("GET" ++ "_").data.map Seg.litc ++ templateSegs "/hello/{name}".data⟩ :=
  ⟨⟨rfl, rfl, by decide, rfl⟩,
   (C7_route_init_contract "/hello/{name}" ⟨21, true, []⟩ "GET").2.2.2
     rfl rfl (by decide) rfl⟩

/-- Mapping a function that fixes every element of a list is the identity. -/
theorem map_id_of_forall {α : Type} (f : α → α) (l : List α)
    (h : ∀ x ∈ l, f x = x) : l.map f = l := by
  induction l with
  | nil => rfl
  | cons a t ih =>
    rw [List.map_cons, h a (List.mem_cons_self _ _),
      ih fun x hx => h x (List.mem_cons_of_mem _ hx)]

/-- Writing the same key twice into the route dictionary keeps only the
second value: the first write is absorbed. -/
theorem insertOrReplace_idem (l : List (String × Route)) (k : String) (v w : Route) :
    insertOrReplace (insertOrReplace l k v) k w = insertOrReplace l k w := by
  unfold insertOrReplace
  by_cases h : l.any (fun p => p.1 = k)
  · rw [if_pos h]
    have hany : (l.map (fun p => if p.1 = k then (k, v) else p)).any
        (fun p => p.1 = k) := by
      simp only [List.any_map, List.any_eq_true] at h ⊢
      obtain ⟨p, hp, hpk⟩ := h
      refine ⟨p, hp, ?_⟩
      simp only [decide_eq_true_eq] at hpk
      simp [Function.comp, hpk]
    rw [if_pos hany, if_pos h, List.map_map]
    congr 1
    funext p
    by_cases hpk : p.1 = k <;> simp [Function.comp, hpk]
  · rw [if_neg h]
    have hany : (l ++ [(k, v)]).any (fun p => p.1 = k) := by simp
    rw [if_pos hany, if_neg h, List.map_append]
    congr 1
    · refine map_id_of_forall _ _ fun p hp => ?_
      have hpk : ¬ p.1 = k := by
        simp only [List.any_eq_true, decide_eq_true_eq] at h
        exact fun hk => h ⟨p, hp, hk⟩
      rw [if_neg hpk]
    · simp

/-- Dictionary writes never duplicate keys: the keys after a write are the
old keys (replacement) or the old keys plus the absent new one (append). -/
theorem insertOrReplace_nodup (l : List (String × Route)) (k : String) (v : Route)
    (h : (l.map Prod.fst).Nodup) :
    ((insertOrReplace l k v).map Prod.fst).Nodup := by
  unfold insertOrReplace
  by_cases ha : l.any (fun p => p.1 = k)
  · rw [if_pos ha, List.map_map]
    have : (Prod.fst ∘ fun p : String × Route => if p.1 = k then (k, v) else p) =
        Prod.fst := by
      funext p
      by_cases hpk : p.1 = k <;> simp [Function.comp, hpk]
    rw [this]
    exact h
  · rw [if_neg ha, List.map_append]
    have hk : k ∉ l.map Prod.fst := by
      simp only [List.any_eq_true, decide_eq_true_eq] at ha
      simp only [List.mem_map]
      rintro ⟨p, hp, hpk⟩
      exact ha ⟨p, hp, hpk⟩
    simp [List.nodup_append, h, hk]

/-- Inversion of a successful `Route.__init__`: the constructed route is
determined by the path, handler and method. -/
theorem route_init_ok (path : String) (handler : Handler) (method : String) (route : Route)
    (h : Route.init path handler method = .ok route) :
    route = ⟨path, handler, pyLower method, get_path_params path,
             (method ++ "_").data.map Seg.litc ++ templateSegs path.data⟩ := by
  unfold Route.init at h
  split at h
  · cases h
  · split at h
    · cases h
    · cases hc : compile_path_regex path (get_path_params path) method with
      | error e => rw [hc] at h; cases h
      | ok segs =>
        rw [hc] at h
        unfold compile_path_regex at hc
        split at hc
        · cases hc
        · split at hc
          · cases hc
          · injection hc with hcs
            injection h with hr
            rw [← hr, hcs]

/-- Any handler invoked by the table scan belongs to a route of the table. -/
theorem dispatchLoop_handler_from_table (scope : Scope) (l : List (String × Route))
    (hid : Nat) (pa : List String) (ka : List (String × String))
    (h : dispatchLoop scope l = .handlerResponse hid pa ka) :
    ∃ kv ∈ l, kv.2.handler.id = hid := by
  induction l with
  | nil => cases h
  | cons kv rest ih =>
    obtain ⟨k, route⟩ := kv
    rw [dispatchLoop] at h
    split at h
    · obtain ⟨x, hx, hxe⟩ := ih h
      exact ⟨x, List.mem_cons_of_mem _ hx, hxe⟩
    · split at h
      · cases h
      · split at h
        · split at h
          · cases h
          · split at h
            · cases h
            · injection h with h1 h2 h3
              exact ⟨(k, route), List.mem_cons_self _ _, h1⟩
        · injection h with h1 h2 h3
          exact ⟨(k, route), List.mem_cons_self _ _, h1⟩

/-- Registering `/x` for `"get"` twice, with handler 1 and then handler 2. -/
def doubleRegRouter : Except PyExc Router :=
  (Router.register ⟨[]⟩ "/x" ⟨1, true, []⟩ "get").bind
    (fun r => Router.register r "/x" ⟨2, true, []⟩ "get")

/-- The explicit router left behind by the two registrations: a single
table entry, holding the second handler. -/
def doubleRegRouterValue : Router :=
  ⟨[("get_/x", ⟨"/x", ⟨2, true, []⟩, "get", [],
     [Seg.litc 'g', Seg.litc 'e', Seg.litc 't', Seg.litc '_',
      Seg.litc '/', Seg.litc 'x']⟩)]⟩

/-- The two registrations evaluate to exactly that router. -/
theorem doubleRegRouter_eq : doubleRegRouter = .ok doubleRegRouterValue := rfl

/-- The router left behind by the first of the two registrations. -/
def singleRegRouterValue : Router :=
  ⟨[("get_/x", ⟨"/x", ⟨1, true, []⟩, "get", [],
     [Seg.litc 'g', Seg.litc 'e', Seg.litc 't', Seg.litc '_',
      Seg.litc '/', Seg.litc 'x']⟩)]⟩

/-- C8: registering a route whose method and path equal those of an
already-registered route writes the same compiled-pattern key, so the
second registration replaces the first entirely — the resulting table is
the one obtained by writing only the second route — and table keys stay
duplicate-free, so at most one route exists per distinct compiled pattern.
For the concrete double registration of `/x`, every dispatch that invokes
a handler invokes handler 2, and the scope with path `"get_/x"` does reach
handler 2. -/
theorem C8_register_last_wins :
    (∀ (r : Router) (path : String) (h1 h2 : Handler) (method : String) (r1 r2 : Router),
      Router.register r path h1 method = .ok r1 →
      Router.register r1 path h2 method = .ok r2 →
      (∃ route2 : Route, Route.init path h2 method = .ok route2 ∧
        r2.routes = insertOrReplace r.routes (renderPattern route2.path_regex) route2) ∧
      ((r.routes.map Prod.fst).Nodup → (r2.routes.map Prod.fst).Nodup)) ∧
    (∀ (rr : Router) (scope : Scope) (hid : Nat) (pa : List String)
        (ka : List (String × String)),
      doubleRegRouter = .ok rr → rr.dispatch scope = .handlerResponse hid pa ka →
      hid = 2) ∧
    doubleRegRouter.map (fun rr => rr.dispatch ⟨"http", "get", "get_/x", ""⟩) =
      .ok (.handlerResponse 2 [] []) := by
  refine ⟨?_, ?_, rfl⟩
  · intro r path h1 h2 method r1 r2 hreg1 hreg2
    unfold Router.register at hreg1 hreg2
    cases hi1 : Route.init path h1 method with
    | error e => rw [hi1] at hreg1; cases hreg1
    | ok route1 =>
      rw [hi1] at hreg1
      injection hreg1 with hr1
      cases hi2 : Route.init path h2 method with
      | error e => rw [hi2] at hreg2; cases hreg2
      | ok route2 =>
        rw [hi2] at hreg2
        injection hreg2 with hr2
        have e1 := route_init_ok path h1 method route1 hi1
        have e2 := route_init_ok path h2 method route2 hi2
        have hkey : renderPattern route1.path_regex = renderPattern route2.path_regex := by
          rw [e1, e2]
        subst hr1
        subst hr2
        constructor
        · refine ⟨route2, rfl, ?_⟩
          show insertOrReplace
              (insertOrReplace r.routes (renderPattern route1.path_regex) route1)
              (renderPattern route2.path_regex) route2 =
            insertOrReplace r.routes (renderPattern route2.path_regex) route2
          rw [hkey]
          exact insertOrReplace_idem _ _ _ _
        · intro hnd
          exact insertOrReplace_nodup _ _ _ (insertOrReplace_nodup _ _ _ hnd)
  · intro rr scope hid pa ka hrr hd
    rw [doubleRegRouter_eq] at hrr
    injection hrr with hrr
    subst hrr
    unfold Router.dispatch at hd
    split at hd
    · cases hd
    · obtain ⟨kv, hkv, hke⟩ := dispatchLoop_handler_from_table _ _ _ _ _ hd
      simp only [doubleRegRouterValue, List.mem_singleton] at hkv
      subst hkv
      exact hke.symm

/-- Witness for C8: the two concrete registrations of `/x` succeed, the
second yields exactly the single-entry table holding handler 2, and the
duplicate-free key invariant holds. -/
theorem C8_register_last_wins_witness :
    (Router.register ⟨[]⟩ "/x" ⟨1, true, []⟩ "get" = .ok singleRegRouterValue ∧
      Router.register singleRegRouterValue "/x" ⟨2, true, []⟩ "get" =
        .ok doubleRegRouterValue) ∧
    (∃ route2 : Route, Route.init "/x" ⟨2, true, []⟩ "get" = .ok route2 ∧
      doubleRegRouterValue.routes =
        insertOrReplace (Router.mk []).routes (renderPattern route2.path_regex) route2) ∧
    (((Router.mk []).routes.map Prod.fst).Nodup →
      (doubleRegRouterValue.routes.map Prod.fst).Nodup) :=
  ⟨⟨rfl, rfl⟩,
   C8_register_last_wins.1 ⟨[]⟩ "/x" ⟨1, true, []⟩ ⟨2, true, []⟩ "get"
     singleRegRouterValue doubleRegRouterValue rfl rfl⟩
